import Mathlib

/-!
# Verification of the Agent_Arb core (scanner / capital guard / executor / portfolio)

Shallow embedding of the repository's core components, with Python floats
modelled as rationals (`ℚ`):

* `src/capital_guard.py` — `CapitalGuard` (allocate / release / can_allocate /
  free_capital / get_safe_position_size);
* `src/scanner.py` — `_normalize_tokens`, `_question_similarity`,
  `OpportunityScanner._scan_pm_poly_kalshi`;
* `src/executor.py` — `Executor.execute` / `Executor._execute_pm`, with each
  external network leg's outcome supplied as an explicit parameter;
* `src/portfolio_manager.py` — `PortfolioManager.close_position`.
-/

namespace AgentArb

/-! ## Capital guard (`src/capital_guard.py`) -/

/-- The mutable state of `CapitalGuard`: `max_capital` is set once in
`__init__`, `used` starts at `0.0` and is mutated by `allocate`/`release`.
The optional `Config` only matters to `get_safe_position_size`, through its
`max_position_pct_of_capital` field; we carry that single rational
(`config_pct = none` models `config is None`). -/
structure Guard where
  max_capital : ℚ
  used : ℚ
  config_pct : Option ℚ := none
deriving DecidableEq, Repr

namespace Guard

/-- `CapitalGuard.free_capital`: `max(0.0, self.max_capital - self.used)`. -/
def free_capital (g : Guard) : ℚ :=
  max 0 (g.max_capital - g.used)

/-- `CapitalGuard.allocate`: returns `False` without mutation when
`amount <= 0` or `self.used + amount > self.max_capital`; otherwise adds
`amount` to `used` and returns `True`.  The pair is (returned bool, new state). -/
def allocate (g : Guard) (amount : ℚ) : Bool × Guard :=
  if amount ≤ 0 then (false, g)
  else if g.max_capital < g.used + amount then (false, g)
  else (true, { g with used := g.used + amount })

/-- `CapitalGuard.release`: `self.used = max(0.0, self.used - amount)`. -/
def release (g : Guard) (amount : ℚ) : Guard :=
  { g with used := max 0 (g.used - amount) }

/-- `CapitalGuard.can_allocate` (the `async` check; it never mutates):
`False` when `amount <= 0` or `used + amount > max_capital`, else `True`. -/
def can_allocate (g : Guard) (amount : ℚ) : Bool :=
  if amount ≤ 0 then false
  else if g.max_capital < g.used + amount then false
  else true

/-- The effective percentage in `get_safe_position_size`:
`max_pct or (self.config.max_position_pct_of_capital if self.config else 0.2)`.
Python's `or` falls through on a falsy left operand, i.e. on `None` and on
`0.0`. -/
def effective_pct (g : Guard) (max_pct : Option ℚ) : ℚ :=
  match max_pct with
  | some p => if p = 0 then g.config_pct.getD (1/5) else p
  | none => g.config_pct.getD (1/5)

/-- `CapitalGuard.get_safe_position_size`:
`min(suggested_size, self.max_capital * pct, self.free_capital)`. -/
def get_safe_position_size (g : Guard) (suggested_size : ℚ)
    (max_pct : Option ℚ := none) : ℚ :=
  let pct := effective_pct g max_pct
  let max_by_pct := g.max_capital * pct
  let max_by_free := free_capital g
  min suggested_size (min max_by_pct max_by_free)

/-- One call in a client-visible sequence of guard mutations. -/
inductive Op where
  | alloc (amount : ℚ)
  | rel (amount : ℚ)
deriving DecidableEq, Repr

/-- Apply one `allocate`/`release` call (the boolean result of `allocate` is
dropped; only the state matters for the invariant). -/
def applyOp (g : Guard) : Op → Guard
  | .alloc a => (allocate g a).2
  | .rel a => release g a

/-- Run a sequence of `allocate`/`release` calls from a given state. -/
def runOps (g : Guard) (ops : List Op) : Guard :=
  ops.foldl applyOp g

/-- A fresh guard as built by `__init__`: `used = 0.0`. -/
def init (max_capital : ℚ) (config_pct : Option ℚ := none) : Guard :=
  { max_capital := max_capital, used := 0, config_pct := config_pct }

end Guard

/-! ### Guard lemmas -/

theorem Guard.applyOp_max_capital (g : Guard) (op : Guard.Op) :
    (Guard.applyOp g op).max_capital = g.max_capital := by
  cases op with
  | alloc a =>
    simp only [Guard.applyOp, Guard.allocate]
    split <;> [skip; split] <;> rfl
  | rel a => rfl

/-- An operation whose amount does not abuse `release`: `allocate` validates
its own argument, but `release` silently trusts the caller, so the invariant
only survives when release amounts are nonnegative. -/
def Guard.Op.wellFormed : Guard.Op → Prop
  | .alloc _ => True
  | .rel a => 0 ≤ a

instance (op : Guard.Op) : Decidable op.wellFormed := by
  cases op with
  | alloc a => exact isTrue trivial
  | rel a => exact inferInstanceAs (Decidable (0 ≤ a))

theorem Guard.applyOp_invariant (g : Guard) (op : Guard.Op)
    (hop : op.wellFormed)
    (h0 : 0 ≤ g.used) (h1 : g.used ≤ g.max_capital) :
    0 ≤ (Guard.applyOp g op).used ∧
      (Guard.applyOp g op).used ≤ (Guard.applyOp g op).max_capital := by
  cases op with
  | alloc a =>
    simp only [Guard.applyOp, Guard.allocate]
    split
    · exact ⟨h0, h1⟩
    · rename_i h
      split
      · exact ⟨h0, h1⟩
      · rename_i h2
        have : 0 < a := lt_of_not_le h
        dsimp only
        exact ⟨by linarith, le_of_not_lt h2⟩
  | rel a =>
    refine ⟨le_max_left _ _, ?_⟩
    simp only [Guard.applyOp, Guard.release]
    have hmax : 0 ≤ g.max_capital := le_trans h0 h1
    have ha : 0 ≤ a := hop
    exact max_le hmax (by linarith)

theorem Guard.runOps_invariant (g : Guard) (ops : List Guard.Op) :
    (∀ op ∈ ops, op.wellFormed) → 0 ≤ g.used → g.used ≤ g.max_capital →
    0 ≤ (Guard.runOps g ops).used ∧
      (Guard.runOps g ops).used ≤ (Guard.runOps g ops).max_capital := by
  induction ops generalizing g with
  | nil => exact fun _ h0 h1 => ⟨h0, h1⟩
  | cons op rest ih =>
    intro hops h0 h1
    have h := Guard.applyOp_invariant g op (hops op (List.mem_cons_self op rest)) h0 h1
    have hmc := Guard.applyOp_max_capital g op
    exact ih (Guard.applyOp g op) (fun o ho => hops o (List.mem_cons_of_mem op ho))
      h.1 (h.2)

theorem Guard.runOps_max_capital (g : Guard) (ops : List Guard.Op) :
    (Guard.runOps g ops).max_capital = g.max_capital := by
  induction ops generalizing g with
  | nil => rfl
  | cons op rest ih =>
    simp only [Guard.runOps, List.foldl_cons] at *
    rw [ih, Guard.applyOp_max_capital]

/-! ### C1

The claim as stated quantifies over *arbitrary* float amounts.  `allocate`
validates its amount, but `release` does not: `release` with a negative
amount *increases* `used` (`max(0.0, used - amount)`), and nothing caps the
result at `max_capital`.  So a single `release(-100)` on a fresh guard with
`max_capital = 50` drives `used` to `100 > max_capital`, refuting the claim.
With release amounts restricted to be nonnegative the invariant does hold. -/

/-- **C1 counterexample.** Starting from `used = 0` with `max_capital = 50`,
the single call `release(-100)` leaves `used = 100`, violating
`used ≤ max_capital`: the invariant does not survive arbitrary amounts. -/
theorem guard_invariant_counterexample :
    (Guard.runOps (Guard.init 50 none) [Guard.Op.rel (-100)]).used = 100 ∧
    ¬ ((Guard.runOps (Guard.init 50 none) [Guard.Op.rel (-100)]).used ≤
        (Guard.init 50 none).max_capital) := by
  constructor
  · show max (0:ℚ) (0 - (-100)) = 100
    norm_num
  · show ¬ (max (0:ℚ) (0 - (-100)) ≤ 50)
    norm_num

/-- **C1 (amended).** Starting from `used = 0` with a nonnegative
`max_capital`, every sequence of `allocate`/`release` calls in which the
`release` amounts are nonnegative (`allocate` amounts stay arbitrary) keeps
`0 ≤ used ≤ max_capital` after every call (every prefix of the sequence is
itself such a sequence); and any `allocate` whose amount is `≤ 0` or would
push `used` over `max_capital` returns `False` and leaves the state
unchanged. -/
theorem guard_invariant (maxC : ℚ) (cp : Option ℚ) (hmax : 0 ≤ maxC)
    (ops : List Guard.Op) (hops : ∀ op ∈ ops, op.wellFormed) :
    (0 ≤ (Guard.runOps (Guard.init maxC cp) ops).used ∧
      (Guard.runOps (Guard.init maxC cp) ops).used ≤ maxC) ∧
    (∀ g : Guard, ∀ a : ℚ, a ≤ 0 ∨ g.max_capital < g.used + a →
      Guard.allocate g a = (false, g)) := by
  constructor
  · have h := Guard.runOps_invariant (Guard.init maxC cp) ops hops le_rfl hmax
    rw [Guard.runOps_max_capital] at h
    exact h
  · intro g a ha
    rcases ha with ha | ha
    · simp [Guard.allocate, ha]
    · simp [Guard.allocate, ha]

/-- Witness for C1 at `max_capital = 100`, a concrete call sequence, and a
concrete rejected allocation. -/
theorem guard_invariant_witness :
    ((0:ℚ) ≤ 100) ∧
    (0 ≤ (Guard.runOps (Guard.init 100 none)
        [Guard.Op.alloc 30, Guard.Op.rel 10, Guard.Op.alloc 200]).used ∧
      (Guard.runOps (Guard.init 100 none)
        [Guard.Op.alloc 30, Guard.Op.rel 10, Guard.Op.alloc 200]).used ≤ 100) ∧
    Guard.allocate (Guard.init 100 none) 200 = (false, Guard.init 100 none) := by
  have h := guard_invariant 100 none (by norm_num)
      [Guard.Op.alloc 30, Guard.Op.rel 10, Guard.Op.alloc 200]
      (by intro op hop; fin_cases hop <;> simp [Guard.Op.wellFormed])
  refine ⟨by norm_num, h.1, ?_⟩
  exact h.2 (Guard.init 100 none) 200 (Or.inr (by norm_num [Guard.init]))

/-! ### C3

`get_safe_position_size` returns the bare `min(suggested, max_capital*pct,
free_capital)`: for `suggested < 0` this *is* negative, refuting the claim's
"never returns a negative value".  Moreover, because a passed `max_pct = 0`
is falsy in Python and silently replaced by the default, the returned size
can exceed `max_capital * pct` for the *given* `pct = 0`. -/

/-- **C3 counterexample.** With `max_capital = 100`, `used = 0`:
`get_safe_position_size(-5)` returns `-5 < 0`; and
`get_safe_position_size(10, max_pct=0)` returns `10`, which exceeds
`min(10, max_capital*0, free) = 0`. -/
theorem get_safe_position_size_counterexample :
    Guard.get_safe_position_size (Guard.init 100 none) (-5) none = -5 ∧
    ((-5 : ℚ) < 0) ∧
    Guard.get_safe_position_size (Guard.init 100 none) 10 (some 0) = 10 ∧
    ¬ (Guard.get_safe_position_size (Guard.init 100 none) 10 (some 0) ≤
        (Guard.init 100 none).max_capital * 0) := by
  refine ⟨?_, by norm_num, ?_, ?_⟩ <;>
    norm_num [Guard.get_safe_position_size, Guard.effective_pct,
      Guard.free_capital, Guard.init]

/-- **C3 (amended).** For every guard state, suggested size and percentage
argument, `get_safe_position_size` never exceeds any of: the suggested size,
`max_capital` times the *effective* percentage (the passed `pct` when truthy,
else the configured default), and the free capital.  It may, however, be
negative (when `suggested < 0`, see the counterexample). -/
theorem get_safe_position_size_bound (g : Guard) (s : ℚ) (mp : Option ℚ) :
    Guard.get_safe_position_size g s mp ≤ s ∧
    Guard.get_safe_position_size g s mp ≤ g.max_capital * Guard.effective_pct g mp ∧
    Guard.get_safe_position_size g s mp ≤ Guard.free_capital g := by
  refine ⟨min_le_left _ _, ?_, ?_⟩
  · exact le_trans (min_le_right _ _) (min_le_left _ _)
  · exact le_trans (min_le_right _ _) (min_le_right _ _)

/-! ### C10 -/

/-- **C10.** Calling `get_safe_position_size` with `max_pct = 0` behaves
exactly like omitting the argument: Python's `max_pct or default` treats
`0.0` as falsy, so in both cases the effective percentage is the configured
`max_position_pct_of_capital` (or `0.2` without a config) — a caller cannot
request a zero-percent cap through this argument. -/
theorem get_safe_position_size_zero_pct_fallback (g : Guard) (s : ℚ) :
    Guard.get_safe_position_size g s (some 0) = Guard.get_safe_position_size g s none ∧
    Guard.effective_pct g (some 0) = g.config_pct.getD (1/5) ∧
    Guard.effective_pct g none = g.config_pct.getD (1/5) := by
  refine ⟨?_, by simp [Guard.effective_pct], rfl⟩
  simp [Guard.get_safe_position_size, Guard.effective_pct]

/-! ## Scanner (`src/scanner.py`) -/

/-- `_STOPWORDS` from `src/scanner.py`. -/
def STOPWORDS : List String :=
  ["the", "a", "an", "will", "be", "by", "before", "after", "on", "in",
   "to", "of", "for", "and", "or", "is", "at"]

/-- A character matched by the regex class `\w` (modelled over ASCII:
letters, digits, underscore). -/
def isWordChar (c : Char) : Bool :=
  c.isAlpha || c.isDigit || c = '_'

/-- `re.sub(r"[^\w\s]", " ", ...)` applied characterwise: anything that is
neither a word character nor whitespace becomes a space. -/
def cleanChar (c : Char) : Char :=
  if isWordChar c || c.isWhitespace then c else ' '

/-- Python `str.split()` with no separator: split on runs of whitespace,
dropping empty fragments.  `cur` accumulates the current token reversed. -/
def splitWs : List Char → List Char → List String
  | [], cur => if cur.isEmpty then [] else [String.mk cur.reverse]
  | c :: cs, cur =>
    if c.isWhitespace then
      if cur.isEmpty then splitWs cs [] else String.mk cur.reverse :: splitWs cs []
    else splitWs cs (c :: cur)

/-- `_normalize_tokens` from `src/scanner.py`: lowercase, replace
non-word/non-space characters by spaces, split on whitespace, keep tokens of
length `> 2` that are not stopwords, as a set. -/
def normalize_tokens (text : String) : Finset String :=
  if text = "" then ∅
  else
    let cleaned := (text.data.map Char.toLower).map cleanChar
    ((splitWs cleaned []).filter
      (fun t => 2 < t.length && !(STOPWORDS.contains t))).toFinset

/-- `_question_similarity` from `src/scanner.py`: Jaccard similarity of the
two normalized token sets, compared against `min_jaccard`; empty token sets
never match. -/
def question_similarity (q1 q2 : String) (min_jaccard : ℚ) : Bool :=
  if normalize_tokens q1 = ∅ ∨ normalize_tokens q2 = ∅ then false
  else if (normalize_tokens q1 ∪ normalize_tokens q2).card = 0 then false
  else decide (min_jaccard ≤
    ((normalize_tokens q1 ∩ normalize_tokens q2).card : ℚ) /
      ((normalize_tokens q1 ∪ normalize_tokens q2).card : ℚ))

/-! ### C8 -/

/-- **C8.** The similarity matcher is symmetric: for all strings `a`, `b`
(and any threshold), `_question_similarity(a, b)` equals
`_question_similarity(b, a)` — intersection, union and the emptiness check
are all symmetric in the two token sets. -/
theorem question_similarity_symm (a b : String) (th : ℚ) :
    question_similarity a b th = question_similarity b a th := by
  have hor : (normalize_tokens a = ∅ ∨ normalize_tokens b = ∅) =
      (normalize_tokens b = ∅ ∨ normalize_tokens a = ∅) := propext or_comm
  simp only [question_similarity,
    Finset.inter_comm (normalize_tokens a) (normalize_tokens b),
    Finset.union_comm (normalize_tokens a) (normalize_tokens b), hor]

/-! ### Market data model (`src/fetchers/*.py`) and opportunities -/

/-- `PolymarketMarket` from `src/fetchers/polymarket_fetcher.py`
(prices as rationals). -/
structure PolymarketMarket where
  market_id : String
  question : String
  condition_id : String
  yes_bid : ℚ
  yes_ask : ℚ
  no_bid : ℚ
  no_ask : ℚ
  volume : ℚ := 0
  yes_token_id : String := ""
  no_token_id : String := ""
deriving DecidableEq, Repr

/-- `KalshiMarket` from `src/fetchers/kalshi_fetcher.py`. -/
structure KalshiMarket where
  market_id : String
  ticker : String
  title : String
  yes_bid : ℚ
  yes_ask : ℚ
  no_bid : ℚ
  no_ask : ℚ
  volume : ℚ := 0
deriving DecidableEq, Repr

/-- `OpportunityType` from `src/scanner.py` (a single variant). -/
inductive OpportunityType where
  | pm_poly_kalshi
deriving DecidableEq, Repr

/-- The `.value` of the (string-valued) enum member. -/
def OpportunityType.value : OpportunityType → String
  | .pm_poly_kalshi => "pm_poly_kalshi"

/-- The `details` dict built in `_scan_pm_poly_kalshi`, as a typed record
(each key of the dict literal becomes a field). -/
structure OppDetails where
  poly_question : String
  poly_yes_ask : ℚ
  poly_yes_token_id : String
  poly_condition_id : String
  kalshi_title : String
  kalshi_ticker : String
  kalshi_no_ask : ℚ
  total_cost : ℚ
deriving DecidableEq, Repr

/-- `Opportunity` from `src/scanner.py`. -/
structure Opportunity where
  type : OpportunityType
  gross_profit_pct : ℚ
  net_profit_pct : ℚ
  size_usd : ℚ
  details : OppDetails
  llm_validated : Bool := false
deriving DecidableEq, Repr

/-- Fee constants from `_scan_pm_poly_kalshi`: `poly_fee = 0.005`. -/
def poly_fee : ℚ := 5/1000

/-- `kalshi_fee = 0.003`. -/
def kalshi_fee : ℚ := 3/1000

/-- The body of the inner `for km in kalshi_markets` loop of
`OpportunityScanner._scan_pm_poly_kalshi`, for one `(pm, km)` pair: `some`
of the appended opportunity when every check passes, else `none`.
(`pm_min_profit_pct` is `self.config.pm_min_profit_pct`; the guard `g` is
`self.guard`.  The local `min_profit = pm_min_profit_pct / 100` computed at
the top of the Python function is never used and is omitted.) -/
def scanPairBody (pm_min_profit_pct : ℚ) (g : Guard)
    (pm : PolymarketMarket) (km : KalshiMarket) : Option Opportunity :=
  if question_similarity pm.question km.title (1/5) then
    let cost_poly_yes := pm.yes_ask * (1 + poly_fee)
    let cost_kalshi_no := km.no_ask * (1 + kalshi_fee)
    let total_cost := cost_poly_yes + cost_kalshi_no
    if total_cost < 1 then
      let profit_per_contract := 1 - total_cost
      let profit_pct := profit_per_contract / total_cost * 100
      if pm_min_profit_pct ≤ profit_pct then
        let size := Guard.get_safe_position_size g 1000
        if 0 < size then
          some { type := .pm_poly_kalshi
                 gross_profit_pct := profit_pct
                 net_profit_pct := profit_pct
                 size_usd := size
                 details := { poly_question := pm.question
                              poly_yes_ask := pm.yes_ask
                              poly_yes_token_id := pm.yes_token_id
                              poly_condition_id := pm.condition_id
                              kalshi_title := km.title
                              kalshi_ticker := km.ticker
                              kalshi_no_ask := km.no_ask
                              total_cost := total_cost } }
        else none
      else none
    else none
  else none

/-- `OpportunityScanner._scan_pm_poly_kalshi`: the nested loops over
`poly_markets × kalshi_markets`, appending in order. -/
def scan_pm_poly_kalshi (pm_min_profit_pct : ℚ) (g : Guard)
    (poly_markets : List PolymarketMarket)
    (kalshi_markets : List KalshiMarket) : List Opportunity :=
  poly_markets.flatMap fun pm =>
    kalshi_markets.filterMap fun km => scanPairBody pm_min_profit_pct g pm km

/-- Inversion: everything true of an opportunity produced by one pair. -/
theorem scanPairBody_some (thr : ℚ) (g : Guard)
    (pm : PolymarketMarket) (km : KalshiMarket) (opp : Opportunity)
    (h : scanPairBody thr g pm km = some opp) :
    question_similarity pm.question km.title (1/5) = true ∧
    pm.yes_ask * (1 + poly_fee) + km.no_ask * (1 + kalshi_fee) < 1 ∧
    opp = { type := .pm_poly_kalshi
            gross_profit_pct :=
              (1 - (pm.yes_ask * (1 + poly_fee) + km.no_ask * (1 + kalshi_fee))) /
                (pm.yes_ask * (1 + poly_fee) + km.no_ask * (1 + kalshi_fee)) * 100
            net_profit_pct :=
              (1 - (pm.yes_ask * (1 + poly_fee) + km.no_ask * (1 + kalshi_fee))) /
                (pm.yes_ask * (1 + poly_fee) + km.no_ask * (1 + kalshi_fee)) * 100
            size_usd := Guard.get_safe_position_size g 1000
            details := { poly_question := pm.question
                         poly_yes_ask := pm.yes_ask
                         poly_yes_token_id := pm.yes_token_id
                         poly_condition_id := pm.condition_id
                         kalshi_title := km.title
                         kalshi_ticker := km.ticker
                         kalshi_no_ask := km.no_ask
                         total_cost :=
                           pm.yes_ask * (1 + poly_fee) + km.no_ask * (1 + kalshi_fee) } } ∧
    thr ≤ opp.net_profit_pct ∧
    0 < opp.size_usd := by
  unfold scanPairBody at h
  by_cases h1 : question_similarity pm.question km.title (1/5) = true
  · rw [if_pos h1] at h
    dsimp only at h
    by_cases h2 : pm.yes_ask * (1 + poly_fee) + km.no_ask * (1 + kalshi_fee) < 1
    · rw [if_pos h2] at h
      by_cases h3 : thr ≤ (1 - (pm.yes_ask * (1 + poly_fee) + km.no_ask * (1 + kalshi_fee))) /
          (pm.yes_ask * (1 + poly_fee) + km.no_ask * (1 + kalshi_fee)) * 100
      · rw [if_pos h3] at h
        by_cases h4 : 0 < Guard.get_safe_position_size g 1000
        · rw [if_pos h4] at h
          have heq := Option.some.inj h
          subst heq
          exact ⟨h1, h2, rfl, h3, h4⟩
        · rw [if_neg h4] at h
          exact absurd h (by simp)
      · rw [if_neg h3] at h
        exact absurd h (by simp)
    · rw [if_neg h2] at h
      exact absurd h (by simp)
  · rw [if_neg (by simpa using h1)] at h
    exact absurd h (by simp)

/-- Membership inversion for the whole scan. -/
theorem mem_scan_pm_poly_kalshi (thr : ℚ) (g : Guard)
    (polys : List PolymarketMarket) (kms : List KalshiMarket)
    (opp : Opportunity) (h : opp ∈ scan_pm_poly_kalshi thr g polys kms) :
    ∃ pm ∈ polys, ∃ km ∈ kms, scanPairBody thr g pm km = some opp := by
  unfold scan_pm_poly_kalshi at h
  rw [List.mem_flatMap] at h
  obtain ⟨pm, hpm, h⟩ := h
  rw [List.mem_filterMap] at h
  obtain ⟨km, hkm, h⟩ := h
  exact ⟨pm, hpm, km, hkm, h⟩

/-- The positive direction: when every check of the body passes, the pair
emits exactly the constructed opportunity. -/
theorem scanPairBody_eq_some (thr : ℚ) (g : Guard)
    (pm : PolymarketMarket) (km : KalshiMarket)
    (hsim : question_similarity pm.question km.title (1/5) = true)
    (hlt : pm.yes_ask * (1 + poly_fee) + km.no_ask * (1 + kalshi_fee) < 1)
    (hthr : thr ≤ (1 - (pm.yes_ask * (1 + poly_fee) + km.no_ask * (1 + kalshi_fee))) /
        (pm.yes_ask * (1 + poly_fee) + km.no_ask * (1 + kalshi_fee)) * 100)
    (hsz : 0 < Guard.get_safe_position_size g 1000) :
    scanPairBody thr g pm km = some
      { type := .pm_poly_kalshi
        gross_profit_pct :=
          (1 - (pm.yes_ask * (1 + poly_fee) + km.no_ask * (1 + kalshi_fee))) /
            (pm.yes_ask * (1 + poly_fee) + km.no_ask * (1 + kalshi_fee)) * 100
        net_profit_pct :=
          (1 - (pm.yes_ask * (1 + poly_fee) + km.no_ask * (1 + kalshi_fee))) /
            (pm.yes_ask * (1 + poly_fee) + km.no_ask * (1 + kalshi_fee)) * 100
        size_usd := Guard.get_safe_position_size g 1000
        details := { poly_question := pm.question
                     poly_yes_ask := pm.yes_ask
                     poly_yes_token_id := pm.yes_token_id
                     poly_condition_id := pm.condition_id
                     kalshi_title := km.title
                     kalshi_ticker := km.ticker
                     kalshi_no_ask := km.no_ask
                     total_cost :=
                       pm.yes_ask * (1 + poly_fee) + km.no_ask * (1 + kalshi_fee) } } := by
  unfold scanPairBody
  rw [if_pos hsim]
  dsimp only
  rw [if_pos hlt, if_pos hthr, if_pos hsz]

/-- A scan of two singleton market lists whose pair passes every check
produces exactly that one opportunity. -/
theorem scan_singleton (thr : ℚ) (g : Guard)
    (pm : PolymarketMarket) (km : KalshiMarket)
    (hsim : question_similarity pm.question km.title (1/5) = true)
    (hlt : pm.yes_ask * (1 + poly_fee) + km.no_ask * (1 + kalshi_fee) < 1)
    (hthr : thr ≤ (1 - (pm.yes_ask * (1 + poly_fee) + km.no_ask * (1 + kalshi_fee))) /
        (pm.yes_ask * (1 + poly_fee) + km.no_ask * (1 + kalshi_fee)) * 100)
    (hsz : 0 < Guard.get_safe_position_size g 1000) :
    scan_pm_poly_kalshi thr g [pm] [km] = [
      { type := .pm_poly_kalshi
        gross_profit_pct :=
          (1 - (pm.yes_ask * (1 + poly_fee) + km.no_ask * (1 + kalshi_fee))) /
            (pm.yes_ask * (1 + poly_fee) + km.no_ask * (1 + kalshi_fee)) * 100
        net_profit_pct :=
          (1 - (pm.yes_ask * (1 + poly_fee) + km.no_ask * (1 + kalshi_fee))) /
            (pm.yes_ask * (1 + poly_fee) + km.no_ask * (1 + kalshi_fee)) * 100
        size_usd := Guard.get_safe_position_size g 1000
        details := { poly_question := pm.question
                     poly_yes_ask := pm.yes_ask
                     poly_yes_token_id := pm.yes_token_id
                     poly_condition_id := pm.condition_id
                     kalshi_title := km.title
                     kalshi_ticker := km.ticker
                     kalshi_no_ask := km.no_ask
                     total_cost :=
                       pm.yes_ask * (1 + poly_fee) + km.no_ask * (1 + kalshi_fee) } }] := by
  unfold scan_pm_poly_kalshi
  simp [List.filterMap_cons, scanPairBody_eq_some thr g pm km hsim hlt hthr hsz]

/-- A question always matches itself once its token set is nonempty and the
threshold is at most `1` (Jaccard of a set with itself is `1`). -/
theorem question_similarity_self (q : String) (th : ℚ)
    (h1 : normalize_tokens q ≠ ∅) (h2 : th ≤ 1) :
    question_similarity q q th = true := by
  unfold question_similarity
  rw [if_neg (by simp [h1])]
  rw [Finset.inter_self, Finset.union_self]
  have hc : (normalize_tokens q).card ≠ 0 := by
    simpa [Finset.card_eq_zero] using h1
  rw [if_neg hc]
  simp only [decide_eq_true_eq]
  rw [div_self (by exact_mod_cast hc)]
  exact h2

/-! ### Concrete fixtures for the scanner witnesses -/

/-- A concrete Polymarket market (`yes_ask = 0.45`, as in the spec's worked
example). -/
def pmTest : PolymarketMarket :=
  { market_id := "m1"
    question := "btc above 100k"
    condition_id := "c1"
    yes_bid := 44/100
    yes_ask := 45/100
    no_bid := 54/100
    no_ask := 55/100
    yes_token_id := "tok-yes"
    no_token_id := "tok-no" }

/-- A concrete Kalshi market with the same (hence matching) title and
`no_ask = 0.52`. -/
def kmTest : KalshiMarket :=
  { market_id := "m2"
    ticker := "BTC-100K"
    title := "btc above 100k"
    yes_bid := 47/100
    yes_ask := 48/100
    no_bid := 51/100
    no_ask := 52/100 }

/-- A fresh guard: `max_capital = 5000`, `used = 0`, 20% cap. -/
def guardTest : Guard :=
  { max_capital := 5000, used := 0, config_pct := some (1/5) }

/-- The same guard with `4800` already allocated (free capital `200`). -/
def guardTestUsed : Guard :=
  { max_capital := 5000, used := 4800, config_pct := some (1/5) }

/-- The pair's total cost: `0.45·1.005 + 0.52·1.003 = 0.97381`. -/
def totalCostTest : ℚ :=
  pmTest.yes_ask * (1 + poly_fee) + kmTest.no_ask * (1 + kalshi_fee)

/-- The opportunity the scanner produces from `pmTest`/`kmTest` with
`guardTest`: profit ≈ 2.69%, size `min(1000, 1000, 5000) = 1000`. -/
def oppTest : Opportunity :=
  { type := .pm_poly_kalshi
    gross_profit_pct := (1 - totalCostTest) / totalCostTest * 100
    net_profit_pct := (1 - totalCostTest) / totalCostTest * 100
    size_usd := Guard.get_safe_position_size guardTest 1000
    details := { poly_question := pmTest.question
                 poly_yes_ask := pmTest.yes_ask
                 poly_yes_token_id := pmTest.yes_token_id
                 poly_condition_id := pmTest.condition_id
                 kalshi_title := kmTest.title
                 kalshi_ticker := kmTest.ticker
                 kalshi_no_ask := kmTest.no_ask
                 total_cost := totalCostTest } }

theorem pmTest_kmTest_similar :
    question_similarity pmTest.question kmTest.title (1/5) = true :=
  question_similarity_self "btc above 100k" (1/5) (by decide) (by norm_num)

theorem totalCostTest_lt_one : totalCostTest < 1 := by
  norm_num [totalCostTest, pmTest, kmTest, poly_fee, kalshi_fee]

theorem profitTest_ge_thr :
    (1/2 : ℚ) ≤ (1 - totalCostTest) / totalCostTest * 100 := by
  norm_num [totalCostTest, pmTest, kmTest, poly_fee, kalshi_fee]

theorem guardTest_size : Guard.get_safe_position_size guardTest 1000 = 1000 := by
  norm_num [Guard.get_safe_position_size, Guard.effective_pct,
    Guard.free_capital, guardTest, min_def, max_def]

theorem guardTestUsed_size : Guard.get_safe_position_size guardTestUsed 1000 = 200 := by
  norm_num [Guard.get_safe_position_size, Guard.effective_pct,
    Guard.free_capital, guardTestUsed, min_def, max_def]

theorem scan_fixture_eq :
    scan_pm_poly_kalshi (1/2) guardTest [pmTest] [kmTest] = [oppTest] := by
  have h := scan_singleton (1/2) guardTest pmTest kmTest
    pmTest_kmTest_similar totalCostTest_lt_one profitTest_ge_thr
    (by rw [guardTest_size]; norm_num)
  rw [h]
  rfl

theorem oppTest_mem :
    oppTest ∈ scan_pm_poly_kalshi (1/2) guardTest [pmTest] [kmTest] := by
  rw [scan_fixture_eq]
  exact List.mem_singleton.mpr rfl

/-- The opportunity the scanner produces with `guardTestUsed`: identical
except the size is clamped to the remaining free capital. -/
def oppTestUsed : Opportunity :=
  { oppTest with size_usd := Guard.get_safe_position_size guardTestUsed 1000 }

theorem scan_fixtureUsed_eq :
    scan_pm_poly_kalshi (1/2) guardTestUsed [pmTest] [kmTest] = [oppTestUsed] := by
  have h := scan_singleton (1/2) guardTestUsed pmTest kmTest
    pmTest_kmTest_similar totalCostTest_lt_one profitTest_ge_thr
    (by rw [guardTestUsed_size]; norm_num)
  rw [h]
  rfl

/-! ### C4 -/

/-- **C4.** Every opportunity the scanner emits comes from a matched pair
`(pm, km)`, carries `total_cost = pm.yes_ask·(1+0.005) + km.no_ask·(1+0.003)`
with `total_cost < 1.0` strictly, and its profit percentage
`(1 − total_cost)/total_cost · 100` is at least the configured minimum;
moreover a pair whose total cost is exactly `1.0` contributes nothing. -/
theorem scan_emits_only_profitable (thr : ℚ) (g : Guard)
    (polys : List PolymarketMarket) (kms : List KalshiMarket)
    (opp : Opportunity) (h : opp ∈ scan_pm_poly_kalshi thr g polys kms) :
    (∃ pm ∈ polys, ∃ km ∈ kms,
      question_similarity pm.question km.title (1/5) = true ∧
      opp.details.total_cost = pm.yes_ask * (1 + poly_fee) + km.no_ask * (1 + kalshi_fee)) ∧
    opp.details.total_cost < 1 ∧
    opp.net_profit_pct = (1 - opp.details.total_cost) / opp.details.total_cost * 100 ∧
    thr ≤ opp.net_profit_pct ∧
    (∀ pm km, pm.yes_ask * (1 + poly_fee) + km.no_ask * (1 + kalshi_fee) = 1 →
      scanPairBody thr g pm km = none) := by
  obtain ⟨pm, hpm, km, hkm, hbody⟩ := mem_scan_pm_poly_kalshi thr g polys kms opp h
  obtain ⟨hsim, hlt, heq, hthr, hsz⟩ := scanPairBody_some thr g pm km opp hbody
  subst heq
  refine ⟨⟨pm, hpm, km, hkm, hsim, rfl⟩, hlt, rfl, hthr, ?_⟩
  intro pm' km' hcost
  unfold scanPairBody
  by_cases hs : question_similarity pm'.question km'.title (1/5) = true
  · rw [if_pos hs]
    dsimp only
    rw [hcost, if_neg (lt_irrefl 1)]
  · rw [if_neg (by simpa using hs)]

/-- Witness for C4 on the concrete fixture scan (threshold `0.5`, fresh
guard with `max_capital = 5000`, 20% cap). -/
theorem scan_emits_only_profitable_witness :
    oppTest ∈ scan_pm_poly_kalshi (1/2) guardTest [pmTest] [kmTest] ∧
    oppTest.details.total_cost < 1 ∧
    (1/2 : ℚ) ≤ oppTest.net_profit_pct := by
  have h := scan_emits_only_profitable (1/2) guardTest
      [pmTest] [kmTest] oppTest oppTest_mem
  exact ⟨oppTest_mem, h.2.1, h.2.2.2.1⟩

/-! ### C5

The claim says the emitted `size_usd` is a fixed nominal unit, independent of
the capital guard's state.  In the code it is
`self.guard.get_safe_position_size(1000)`, which depends on `used`: the same
market pair scanned with `used = 0` yields `size_usd = 1000`, but with
`used = 4800` (free capital `200`) yields `size_usd = 200`. -/

/-- **C5 counterexample.** Identical markets and threshold, two guard
states: the emitted sizes differ (`1000` vs `200`), so `size_usd` at
detection is not independent of the guard's state. -/
theorem scan_size_usd_counterexample :
    ((scan_pm_poly_kalshi (1/2) guardTest [pmTest] [kmTest]).map
        Opportunity.size_usd = [1000]) ∧
    ((scan_pm_poly_kalshi (1/2) guardTestUsed [pmTest] [kmTest]).map
        Opportunity.size_usd = [200]) := by
  constructor
  · rw [scan_fixture_eq]
    simp only [List.map_cons, List.map_nil]
    rw [show oppTest.size_usd = Guard.get_safe_position_size guardTest 1000 from rfl,
      guardTest_size]
  · rw [scan_fixtureUsed_eq]
    simp only [List.map_cons, List.map_nil]
    rw [show oppTestUsed.size_usd = Guard.get_safe_position_size guardTestUsed 1000
      from rfl, guardTestUsed_size]

/-- **C5 (amended).** Every opportunity emitted by the scanner carries
`size_usd = guard.get_safe_position_size(1000)` — the nominal unit `1000`
already clamped at detection time by the percentage-of-capital cap and the
guard's current free capital (so it does depend on the guard's state), and
an opportunity is only emitted when that clamped size is positive. -/
theorem scan_size_usd_from_guard (thr : ℚ) (g : Guard)
    (polys : List PolymarketMarket) (kms : List KalshiMarket)
    (opp : Opportunity) (h : opp ∈ scan_pm_poly_kalshi thr g polys kms) :
    opp.size_usd = Guard.get_safe_position_size g 1000 ∧ 0 < opp.size_usd := by
  obtain ⟨pm, hpm, km, hkm, hbody⟩ := mem_scan_pm_poly_kalshi thr g polys kms opp h
  obtain ⟨hsim, hlt, heq, hthr, hsz⟩ := scanPairBody_some thr g pm km opp hbody
  subst heq
  exact ⟨rfl, hsz⟩

/-- Witness for C5 (amended) on the concrete fixture scan. -/
theorem scan_size_usd_from_guard_witness :
    oppTest ∈ scan_pm_poly_kalshi (1/2) guardTest [pmTest] [kmTest] ∧
    oppTest.size_usd = Guard.get_safe_position_size guardTest 1000 ∧
    0 < oppTest.size_usd := by
  exact ⟨oppTest_mem, scan_size_usd_from_guard (1/2) guardTest
      [pmTest] [kmTest] oppTest oppTest_mem⟩

/-! ### C9 -/

/-- **C9.** Every opportunity the scanner emits has
`gross_profit_pct = net_profit_pct` (both are assigned the same post-fee
`profit_pct`), so the gross/net distinction carries no information for
scanner-produced opportunities. -/
theorem scan_gross_eq_net (thr : ℚ) (g : Guard)
    (polys : List PolymarketMarket) (kms : List KalshiMarket)
    (opp : Opportunity) (h : opp ∈ scan_pm_poly_kalshi thr g polys kms) :
    opp.gross_profit_pct = opp.net_profit_pct := by
  obtain ⟨pm, hpm, km, hkm, hbody⟩ := mem_scan_pm_poly_kalshi thr g polys kms opp h
  obtain ⟨hsim, hlt, heq, hthr, hsz⟩ := scanPairBody_some thr g pm km opp hbody
  subst heq
  rfl

/-- Witness for C9 on the concrete fixture scan. -/
theorem scan_gross_eq_net_witness :
    oppTest ∈ scan_pm_poly_kalshi (1/2) guardTest [pmTest] [kmTest] ∧
    oppTest.gross_profit_pct = oppTest.net_profit_pct := by
  exact ⟨oppTest_mem, scan_gross_eq_net (1/2) guardTest
      [pmTest] [kmTest] oppTest oppTest_mem⟩

/-! ## Executor (`src/executor.py`)

`Executor.execute` / `Executor._execute_pm`, with each leg's external
network call supplied as an explicit outcome parameter, and the state it
threads (the capital guard) passed explicitly.  The returned triple is
`(ExecutionResult, guard afterwards, whether guard.allocate was called)`. -/

/-- The executor-relevant configuration: `simulation` is
`config.mode == "sim"`; the three booleans are the Python truthiness of
`config.polymarket.private_key`, `config.kalshi.api_key`,
`config.kalshi.api_secret`. -/
structure ExecConfig where
  simulation : Bool
  poly_private_key : Bool
  kalshi_api_key : Bool
  kalshi_api_secret : Bool
deriving DecidableEq, Repr

/-- Outcome of the Polymarket leg's network call (`_place_poly_order` via
`py_clob_client`): a placed order carrying its `orderID`, an `ImportError`
(client library missing — the code logs and falls through without an order
id), or any other exception (caught and turned into a failure return). -/
inductive PolyLegOutcome where
  | placed (orderID : String)
  | importError
  | exn (msg : String)
deriving DecidableEq, Repr

/-- `ExecutionResult` from `src/executor.py`. -/
structure ExecutionResult where
  success : Bool
  opportunity_type : OpportunityType
  size_usd : ℚ
  message : String
  order_ids : List String
deriving DecidableEq, Repr

/-- The tail of `Executor._execute_pm` after the Polymarket leg, starting
from the order ids collected so far: the Kalshi leg (`kalshi = some id` when
`place_kalshi_order` returned a response with that order id, `none` when it
returned falsy), the `len(order_ids) < 2` reconciliation check, and
`guard.allocate` on the success path only. -/
def execute_pm_after_poly (g : Guard) (opp : Opportunity)
    (kalshi : Option String) (order_ids : List String) :
    ExecutionResult × Guard × Bool :=
  match kalshi with
  | none =>
    (⟨false, opp.type, opp.size_usd, "Kalshi order failed", order_ids⟩, g, false)
  | some kid =>
    let order_ids2 := order_ids ++ [kid]
    if order_ids2.length < 2 then
      (⟨false, opp.type, opp.size_usd, "Both Poly and Kalshi orders required",
        order_ids2⟩, g, false)
    else
      (⟨true, opp.type, opp.size_usd, "PM arb executed", order_ids2⟩,
        (Guard.allocate g opp.size_usd).2, true)

/-- `Executor._execute_pm`.  The `d.get(...)` detail lookups become field
reads on the typed details record, with Python truthiness of the extracted
strings modelled as `≠ ""`; `kalshi_ticker` being truthy implies the
`if kalshi_ticker:` branch always runs once the first two checks pass. -/
def execute_pm (cfg : ExecConfig) (g : Guard) (opp : Opportunity)
    (poly : PolyLegOutcome) (kalshi : Option String) :
    ExecutionResult × Guard × Bool :=
  if opp.details.poly_yes_token_id = "" ∨ opp.details.kalshi_ticker = "" then
    (⟨false, opp.type, opp.size_usd, "Missing poly token or kalshi ticker", []⟩,
      g, false)
  else if ¬cfg.poly_private_key ∨ ¬cfg.kalshi_api_key ∨ ¬cfg.kalshi_api_secret then
    (⟨false, opp.type, opp.size_usd, "PM arb requires Poly + Kalshi credentials", []⟩,
      g, false)
  else
    match poly with
    | .exn msg =>
      (⟨false, opp.type, opp.size_usd, "Polymarket: " ++ msg, []⟩, g, false)
    | .importError =>
      execute_pm_after_poly g opp kalshi []
    | .placed pid =>
      execute_pm_after_poly g opp kalshi [pid]

/-- `Executor.execute`: the admission check via `guard.can_allocate`, the
simulation short-circuit, and the dispatch on the opportunity type (with a
single variant, `_execute_pm` is always reached; the `Unsupported type`
fallback is unreachable). -/
def execute (cfg : ExecConfig) (g : Guard) (opp : Opportunity)
    (poly : PolyLegOutcome) (kalshi : Option String) :
    ExecutionResult × Guard × Bool :=
  if ¬ Guard.can_allocate g opp.size_usd then
    (⟨false, opp.type, opp.size_usd, "Insufficient capital allocation", []⟩,
      g, false)
  else if cfg.simulation then
    (⟨true, opp.type, opp.size_usd, "Simulation execution logged",
      ["sim-" ++ opp.type.value]⟩, (Guard.allocate g opp.size_usd).2, true)
  else
    match opp.type with
    | .pm_poly_kalshi => execute_pm cfg g opp poly kalshi

/-- When the admission check passes, `allocate` succeeds and adds exactly
the amount. -/
theorem Guard.allocate_of_can_allocate (g : Guard) (a : ℚ)
    (h : Guard.can_allocate g a = true) :
    Guard.allocate g a = (true, { g with used := g.used + a }) := by
  unfold Guard.can_allocate at h
  unfold Guard.allocate
  split at h
  · exact absurd h (by simp)
  · split at h
    · exact absurd h (by simp)
    · rename_i h1 h2
      rw [if_neg h1, if_neg h2]

/-! ### Fixtures for the executor claims -/

/-- Live-mode configuration with all credentials present. -/
def cfgLiveTest : ExecConfig :=
  { simulation := false, poly_private_key := true,
    kalshi_api_key := true, kalshi_api_secret := true }

/-- Simulation-mode configuration (credentials irrelevant). -/
def cfgSimTest : ExecConfig :=
  { simulation := true, poly_private_key := false,
    kalshi_api_key := false, kalshi_api_secret := false }

/-- A concrete validated opportunity handed to the executor
(`size_usd = 1000`, all venue identifiers present). -/
def oppExecTest : Opportunity :=
  { type := .pm_poly_kalshi
    gross_profit_pct := 269/100
    net_profit_pct := 269/100
    size_usd := 1000
    details := { poly_question := "btc above 100k"
                 poly_yes_ask := 45/100
                 poly_yes_token_id := "tok-yes"
                 poly_condition_id := "c1"
                 kalshi_title := "btc above 100k"
                 kalshi_ticker := "BTC-100K"
                 kalshi_no_ask := 52/100
                 total_cost := 97381/100000 } }

theorem guardTest_can_allocate :
    Guard.can_allocate guardTest oppExecTest.size_usd = true := by
  norm_num [Guard.can_allocate, guardTest, oppExecTest]

/-! ### C2 -/

/-- **C2.** Live execution, first leg (Polymarket) succeeds with order id
`pid`, second leg (Kalshi) fails: `execute` returns a failure result whose
`order_ids` contains `pid`, the guard is returned exactly unchanged, and
`allocate` was not called; moreover on every live execution path `allocate`
is called only when both legs produced order ids (and then the result
carries both). -/
theorem execute_partial_fill (cfg : ExecConfig) (g : Guard) (opp : Opportunity)
    (pid : String)
    (hsim : cfg.simulation = false)
    (hcan : Guard.can_allocate g opp.size_usd = true)
    (htok : opp.details.poly_yes_token_id ≠ "")
    (htick : opp.details.kalshi_ticker ≠ "")
    (hpk : cfg.poly_private_key = true)
    (hkk : cfg.kalshi_api_key = true)
    (hks : cfg.kalshi_api_secret = true) :
    (execute cfg g opp (.placed pid) none).1.success = false ∧
    pid ∈ (execute cfg g opp (.placed pid) none).1.order_ids ∧
    (execute cfg g opp (.placed pid) none).2.1 = g ∧
    (execute cfg g opp (.placed pid) none).2.2 = false ∧
    (∀ (poly : PolyLegOutcome) (kalshi : Option String),
      (execute cfg g opp poly kalshi).2.2 = true →
      ∃ p k, poly = PolyLegOutcome.placed p ∧ kalshi = some k ∧
        (execute cfg g opp poly kalshi).1.order_ids = [p, k]) := by
  obtain ⟨ty, gp, np, su, det, lv⟩ := opp
  cases ty
  refine ⟨?_, ?_, ?_, ?_, ?_⟩
  · simp [execute, execute_pm, execute_pm_after_poly, hcan, hsim, htok, htick,
      hpk, hkk, hks]
  · simp [execute, execute_pm, execute_pm_after_poly, hcan, hsim, htok, htick,
      hpk, hkk, hks]
  · simp [execute, execute_pm, execute_pm_after_poly, hcan, hsim, htok, htick,
      hpk, hkk, hks]
  · simp [execute, execute_pm, execute_pm_after_poly, hcan, hsim, htok, htick,
      hpk, hkk, hks]
  · intro poly kalshi
    cases poly <;> cases kalshi <;>
      simp [execute, execute_pm, execute_pm_after_poly, hcan, hsim, htok, htick,
        hpk, hkk, hks]

/-- Witness for C2 on the concrete fixtures. -/
theorem execute_partial_fill_witness :
    (execute cfgLiveTest guardTest oppExecTest (.placed "poly-1") none).1.success = false ∧
    "poly-1" ∈ (execute cfgLiveTest guardTest oppExecTest (.placed "poly-1") none).1.order_ids ∧
    (execute cfgLiveTest guardTest oppExecTest (.placed "poly-1") none).2.1 = guardTest ∧
    (execute cfgLiveTest guardTest oppExecTest (.placed "poly-1") none).2.2 = false := by
  have h := execute_partial_fill cfgLiveTest guardTest oppExecTest "poly-1"
    rfl guardTest_can_allocate (by decide) (by decide) rfl rfl rfl
  exact ⟨h.1, h.2.1, h.2.2.1, h.2.2.2.1⟩

/-! ### C6

The claim says the simulation result contains one synthetic order id *per
leg* (two ids for the two-leg opportunity).  The code returns
`order_ids=["sim-" + opp.type.value]` — a single id in total. -/

/-- **C6 counterexample.** A concrete simulation-mode execution that passes
admission: the result is a success, but `order_ids` is the singleton
`["sim-pm_poly_kalshi"]` of length 1, not one id per leg (2). -/
theorem execute_sim_counterexample :
    (execute cfgSimTest guardTest oppExecTest .importError none).1.success = true ∧
    (execute cfgSimTest guardTest oppExecTest .importError none).1.order_ids =
      ["sim-pm_poly_kalshi"] ∧
    ¬ ((execute cfgSimTest guardTest oppExecTest .importError none).1.order_ids.length = 2) := by
  have hcan : Guard.can_allocate guardTest (1000 : ℚ) = true := guardTest_can_allocate
  refine ⟨?_, ?_, ?_⟩ <;>
    simp [execute, hcan, cfgSimTest, OpportunityType.value, oppExecTest]

/-- **C6 (amended).** In simulation mode, for every opportunity passing the
admission check, `execute` allocates exactly `size_usd` (the guard's `used`
increases by `size_usd`), performs no network call (the result is
independent of both leg outcomes), and returns a success carrying a single
synthetic order id `"sim-" + type` — one id in total, not one per leg. -/
theorem execute_sim (cfg : ExecConfig) (g : Guard) (opp : Opportunity)
    (poly : PolyLegOutcome) (kalshi : Option String)
    (hsim : cfg.simulation = true)
    (hcan : Guard.can_allocate g opp.size_usd = true) :
    (execute cfg g opp poly kalshi).1.success = true ∧
    (execute cfg g opp poly kalshi).1.order_ids = ["sim-" ++ opp.type.value] ∧
    (execute cfg g opp poly kalshi).2.1.used = g.used + opp.size_usd ∧
    (execute cfg g opp poly kalshi).2.2 = true ∧
    execute cfg g opp poly kalshi = execute cfg g opp .importError none := by
  have halloc := Guard.allocate_of_can_allocate g opp.size_usd hcan
  refine ⟨?_, ?_, ?_, ?_, ?_⟩ <;> simp [execute, hcan, hsim, halloc]

/-- Witness for C6 (amended) on the concrete fixtures. -/
theorem execute_sim_witness :
    cfgSimTest.simulation = true ∧
    Guard.can_allocate guardTest oppExecTest.size_usd = true ∧
    (execute cfgSimTest guardTest oppExecTest .importError none).1.success = true ∧
    (execute cfgSimTest guardTest oppExecTest .importError none).2.1.used =
      guardTest.used + oppExecTest.size_usd := by
  have h := execute_sim cfgSimTest guardTest oppExecTest .importError none
    rfl guardTest_can_allocate
  exact ⟨rfl, guardTest_can_allocate, h.1, h.2.2.1⟩

/-! ## Portfolio manager (`src/portfolio_manager.py`) -/

/-- `Position` from `src/portfolio_manager.py` (`entry_time` as a rational
timestamp; `status` is the string `"open"` or `"closed"` as in the code). -/
structure Position where
  id : String
  type : String
  size_usd : ℚ
  entry_time : ℚ
  expected_profit_pct : ℚ
  status : String := "open"
deriving DecidableEq, Repr

/-- The mutable state of `PortfolioManager` (the guard it holds plus its own
fields). -/
structure Portfolio where
  guard : Guard
  positions : List Position
  realized_pnl : ℚ
  fees_paid : ℚ
deriving DecidableEq, Repr

/-- `PortfolioManager.add_position`: appends the record. -/
def add_position (pf : Portfolio) (pos : Position) : Portfolio :=
  { pf with positions := pf.positions ++ [pos] }

/-- The `for i, p in enumerate(self.positions)` loop of `close_position`:
find the first position with matching id and status `"open"`, mark it
closed in place; `none` when no such position exists. -/
def closeFirst : List Position → String → Option (Position × List Position)
  | [], _ => none
  | p :: rest, pos_id =>
    if p.id = pos_id ∧ p.status = "open" then
      some ({ p with status := "closed" }, { p with status := "closed" } :: rest)
    else
      match closeFirst rest pos_id with
      | some (q, rest2) => some (q, p :: rest2)
      | none => none

/-- `PortfolioManager.close_position`: on the first open position with this
id, set its status to closed, add `pnl`/`fees` to the aggregates, release
its `size_usd` back to the guard and return it; otherwise return `None`
with nothing changed. -/
def close_position (pf : Portfolio) (pos_id : String) (pnl : ℚ) (fees : ℚ := 0) :
    Option Position × Portfolio :=
  match closeFirst pf.positions pos_id with
  | some (q, ps) =>
    (some q,
      { guard := Guard.release pf.guard q.size_usd
        positions := ps
        realized_pnl := pf.realized_pnl + pnl
        fees_paid := pf.fees_paid + fees })
  | none => (none, pf)

/-- If no position matches (`id` plus open status), the loop finds
nothing. -/
theorem closeFirst_eq_none (ps : List Position) (pos_id : String)
    (h : ∀ p ∈ ps, ¬ (p.id = pos_id ∧ p.status = "open")) :
    closeFirst ps pos_id = none := by
  induction ps with
  | nil => rfl
  | cons p rest ih =>
    unfold closeFirst
    rw [if_neg (h p (List.mem_cons_self p rest))]
    rw [ih (fun q hq => h q (List.mem_cons_of_mem p hq))]

/-- After a successful close on a list with pairwise-distinct ids, no open
position with that id remains. -/
theorem closeFirst_closes (ps : List Position) (pos_id : String)
    (q : Position) (ps2 : List Position)
    (hnodup : (ps.map Position.id).Nodup)
    (h : closeFirst ps pos_id = some (q, ps2)) :
    q.id = pos_id ∧ q.status = "closed" ∧
    (∀ p ∈ ps2, ¬ (p.id = pos_id ∧ p.status = "open")) := by
  induction ps generalizing ps2 with
  | nil => exact absurd h (by simp [closeFirst])
  | cons p rest ih =>
    rw [List.map_cons, List.nodup_cons] at hnodup
    unfold closeFirst at h
    by_cases hp : p.id = pos_id ∧ p.status = "open"
    · rw [if_pos hp] at h
      simp only [Option.some.injEq, Prod.mk.injEq] at h
      obtain ⟨hq, hps2⟩ := h
      subst hq
      subst hps2
      refine ⟨hp.1, rfl, ?_⟩
      intro r hr
      rcases List.mem_cons.mp hr with hr | hr
      · subst hr
        intro hcon
        exact absurd hcon.2 (by simp)
      · intro hcon
        apply hnodup.1
        rw [hp.1, ← hcon.1]
        exact List.mem_map_of_mem Position.id hr
    · rw [if_neg hp] at h
      cases hrec : closeFirst rest pos_id with
      | none => rw [hrec] at h; exact absurd h (by simp)
      | some v =>
        obtain ⟨q', rest2⟩ := v
        rw [hrec] at h
        simp only [Option.some.injEq, Prod.mk.injEq] at h
        obtain ⟨hq, hps2⟩ := h
        subst hq
        subst hps2
        obtain ⟨h1, h2, h3⟩ := ih rest2 hnodup.2 hrec
        refine ⟨h1, h2, ?_⟩
        intro r hr
        rcases List.mem_cons.mp hr with hr | hr
        · subst hr; exact hp
        · exact h3 r hr

/-! ### C7

The claim quantifies over *every* position id.  `add_position` never checks
uniqueness, so two open positions can share an id; then a second
`close_position` on that id closes the *second* position (changing state and
returning it) instead of being a no-op — refuting the claim as stated.  With
pairwise-distinct ids (as produced by the executor's order-id-derived ids)
the claim holds. -/

/-- A concrete portfolio holding two *open* positions with the same id
`"x"` (sizes 10 and 20), guard `used = 30`. -/
def pfDup : Portfolio :=
  { guard := { max_capital := 100, used := 30, config_pct := none }
    positions :=
      [ { id := "x", type := "pm_poly_kalshi", size_usd := 10,
          entry_time := 0, expected_profit_pct := 2, status := "open" },
        { id := "x", type := "pm_poly_kalshi", size_usd := 20,
          entry_time := 0, expected_profit_pct := 2, status := "open" } ]
    realized_pnl := 0
    fees_paid := 0 }

/-- **C7 counterexample.** On `pfDup` the second `close_position("x")` is
*not* a no-op: it returns a (second) closed position and changes the
realized P&L again — because duplicate ids defeat the idempotence the claim
asserts for every id. -/
theorem close_position_counterexample :
    (close_position pfDup "x" 1 0).2.realized_pnl = 1 ∧
    (close_position (close_position pfDup "x" 1 0).2 "x" 1 0).1 ≠ none ∧
    (close_position (close_position pfDup "x" 1 0).2 "x" 1 0).2.realized_pnl = 2 := by
  refine ⟨?_, ?_, ?_⟩ <;>
    first
    | (simp [close_position, closeFirst, pfDup, Guard.release]; norm_num)
    | simp [close_position, closeFirst, pfDup, Guard.release]

/-- **C7 (amended).** Provided the portfolio's position ids are pairwise
distinct, the first successful `close_position(id)` marks the position
closed, adds `pnl` and `fees` to the aggregates and releases exactly the
position's `size_usd` back to the guard; a second call on the same id (and
any call on an id that no position carries) returns nothing found and
changes nothing. -/
theorem close_position_idempotent (pf : Portfolio) (pos_id : String)
    (pnl fees pnl2 fees2 : ℚ) (q : Position) (pf2 : Portfolio)
    (hnodup : (pf.positions.map Position.id).Nodup)
    (h : close_position pf pos_id pnl fees = (some q, pf2)) :
    q.status = "closed" ∧
    pf2.realized_pnl = pf.realized_pnl + pnl ∧
    pf2.fees_paid = pf.fees_paid + fees ∧
    pf2.guard = Guard.release pf.guard q.size_usd ∧
    close_position pf2 pos_id pnl2 fees2 = (none, pf2) ∧
    (∀ (pf' : Portfolio) (pid' : String),
      (∀ p ∈ pf'.positions, p.id ≠ pid') →
      close_position pf' pid' pnl2 fees2 = (none, pf')) := by
  have habsent : ∀ (pf' : Portfolio) (pid' : String),
      (∀ p ∈ pf'.positions, p.id ≠ pid') →
      close_position pf' pid' pnl2 fees2 = (none, pf') := by
    intro pf' pid' hab
    unfold close_position
    rw [closeFirst_eq_none pf'.positions pid'
      (fun p hp hcon => hab p hp hcon.1)]
  cases hrec : closeFirst pf.positions pos_id with
  | none =>
    unfold close_position at h
    rw [hrec] at h
    exact absurd h (by simp)
  | some v =>
    obtain ⟨q', ps2⟩ := v
    simp only [close_position, hrec, Prod.mk.injEq, Option.some.injEq] at h
    obtain ⟨hq, hpf2⟩ := h
    obtain ⟨hid, hclosed, hnone⟩ := closeFirst_closes pf.positions pos_id q' ps2 hnodup hrec
    subst hq
    subst hpf2
    refine ⟨hclosed, rfl, rfl, rfl, ?_, habsent⟩
    have hnone2 : closeFirst ps2 pos_id = none := closeFirst_eq_none ps2 pos_id hnone
    simp only [close_position]
    rw [hnone2]

/-- Witness for C7 (amended): a portfolio with one open position `"x"`
(size 10, guard `used = 10`); the first close succeeds and the theorem's
conclusions are realized concretely. -/
theorem close_position_idempotent_witness :
    ([(⟨"x", "pm_poly_kalshi", 10, 0, 2, "open"⟩ : Position)].map Position.id).Nodup ∧
    close_position
      (Portfolio.mk (Guard.mk 100 10 none)
        [⟨"x", "pm_poly_kalshi", 10, 0, 2, "open"⟩] 0 0) "x" 1 0 =
      (some ⟨"x", "pm_poly_kalshi", 10, 0, 2, "closed"⟩,
        Portfolio.mk (Guard.mk 100 0 none)
          [⟨"x", "pm_poly_kalshi", 10, 0, 2, "closed"⟩] 1 0) ∧
    close_position
      (Portfolio.mk (Guard.mk 100 0 none)
        [⟨"x", "pm_poly_kalshi", 10, 0, 2, "closed"⟩] 1 0) "x" 1 0 =
      (none, Portfolio.mk (Guard.mk 100 0 none)
        [⟨"x", "pm_poly_kalshi", 10, 0, 2, "closed"⟩] 1 0) := by
  have hfirst : close_position
      (Portfolio.mk (Guard.mk 100 10 none)
        [⟨"x", "pm_poly_kalshi", 10, 0, 2, "open"⟩] 0 0) "x" 1 0 =
      (some ⟨"x", "pm_poly_kalshi", 10, 0, 2, "closed"⟩,
        Portfolio.mk (Guard.mk 100 0 none)
          [⟨"x", "pm_poly_kalshi", 10, 0, 2, "closed"⟩] 1 0) := by
    simp [close_position, closeFirst, Guard.release]
  have h := close_position_idempotent
    (Portfolio.mk (Guard.mk 100 10 none)
      [⟨"x", "pm_poly_kalshi", 10, 0, 2, "open"⟩] 0 0) "x" 1 0 1 0
    ⟨"x", "pm_poly_kalshi", 10, 0, 2, "closed"⟩
    (Portfolio.mk (Guard.mk 100 0 none)
      [⟨"x", "pm_poly_kalshi", 10, 0, 2, "closed"⟩] 1 0)
    (by simp) hfirst
  exact ⟨by simp, hfirst, h.2.2.2.2.1⟩

end AgentArb
